import Mathlib

/-!
Shallow embedding of the paginated fetch-with-retry collectors of the
ibama_api_licitacoes repository (`consultar_uasg.py`, `consultar_orgao.py`,
`consultar_pgcDetalhe.py`), together with the CNPJ normalisation helpers.

The remote HTTP service is modelled as an oracle assigning to every attempt
index the outcome of that `requests.get` call; the collectors are translated
as pure functions over such oracles.  Unbounded `while True` pagination loops
take an explicit fuel argument; all theorems about them assume enough fuel
for the run they describe.
-/

namespace IbamaApi

/-- Outcome of one HTTP attempt (one `requests.get` call) as observed by the
collectors.  `exn` models a transport error raised by `requests.get`
(connection failure, timeout).  `resp status resultado` models a delivered
response whose body is a JSON object; `resultado` is `some l` when the body
has a `"resultado"` field holding the list `l`, and `none` when that field is
absent (so that `.get("resultado", [])` yields `[]`).  Records stay abstract
in the type parameter `Rec`.  Bodies that are not JSON objects are outside
this model. -/
inductive HttpOutcome (Rec : Type) where
  | exn : HttpOutcome Rec
  | resp (status : Nat) (resultado : Option (List Rec)) : HttpOutcome Rec
  deriving DecidableEq

/-- Whether `requests.Response.raise_for_status()` raises `HTTPError` for a
given status code: it does exactly for client errors (4xx) and server errors
(5xx), i.e. for 400 ≤ status < 600.  Statuses 1xx/3xx do not raise. -/
def raise_for_status_raises (s : Nat) : Bool :=
  decide (400 ≤ s) && decide (s < 600)

/-- Value of `resposta.json().get("resultado", [])` for a delivered response;
for `exn` (no response exists) we return `[]`, a value never used under the
hypotheses of the theorems below. -/
def parseResposta {Rec : Type} : HttpOutcome Rec → List Rec
  | .exn => []
  | .resp _ r => r.getD []

/-- Whether one attempt counts as failed (caught and retried) in
`ColetorDadosUasg.buscar_dados` / `ColetorDadosPgc.buscar_dados`: the
`except requests.exceptions.RequestException` clause catches both transport
errors and the `HTTPError` raised by `raise_for_status`. -/
def attemptFails {Rec : Type} : HttpOutcome Rec → Bool
  | .exn => true
  | .resp s _ => raise_for_status_raises s

/-- Retry loop of `ColetorDadosUasg.buscar_dados` (consultar_uasg.py, lines
24-42) and of `ColetorDadosPgc.buscar_dados` (consultar_pgcDetalhe.py, lines
25-45), whose bodies are identical: `tentativas = 0; while tentativas < 5:`
issue the request, return the parsed `"resultado"` on success, increment
`tentativas` and retry on a caught `RequestException`; return `None` after
the loop.  Here `t` is `tentativas` (it indexes the attempt oracle) and `rem`
is the remaining budget `5 - tentativas`, carried structurally so that the
function evaluates by reduction.  The second component counts the
`requests.get` calls issued. -/
def buscarLoop {Rec : Type} (attempts : Nat → HttpOutcome Rec) (t : Nat) :
    Nat → Option (List Rec) × Nat
  | 0 => (none, 0)
  | rem + 1 =>
    match attempts t with
    | .exn =>
      let p := buscarLoop attempts (t + 1) rem
      (p.1, p.2 + 1)
    | .resp s r =>
      if raise_for_status_raises s then
        let p := buscarLoop attempts (t + 1) rem
        (p.1, p.2 + 1)
      else (some (r.getD []), 1)

/-- The page fetcher of `ColetorDadosUasg` and `ColetorDadosPgc`, run from
`tentativas = 0` with the full budget of 5 attempts.  Returns the parsed page
(`some l`) or definitive failure (`none`), paired with the number of
`requests.get` calls issued. -/
def buscar_dados {Rec : Type} (attempts : Nat → HttpOutcome Rec) :
    Option (List Rec) × Nat :=
  buscarLoop attempts 0 5

/-- Whether one attempt counts as failed-and-retried in
`ColetorDadosOrgao.buscar_dados` (consultar_orgao.py, lines 11-23): there is
no try/except there, so only a delivered response with `status_code != 200`
is retried; a transport error propagates out of the method. -/
def orgaoFalha {Rec : Type} : HttpOutcome Rec → Bool
  | .exn => false
  | .resp s _ => decide (s ≠ 200)

/-- Retry loop of `ColetorDadosOrgao.buscar_dados` (consultar_orgao.py, lines
11-23): `while tentativas < 5:` call `requests.get` (an exception propagates,
modelled by `Except.error ()`), return the parsed `"resultado"` when
`status_code == 200`, otherwise increment `tentativas` and retry; return
`None` after the loop.  Same `t` / `rem` convention as `buscarLoop`. -/
def buscarLoopOrgao {Rec : Type} (attempts : Nat → HttpOutcome Rec) (t : Nat) :
    Nat → Except Unit (Option (List Rec) × Nat)
  | 0 => .ok (none, 0)
  | rem + 1 =>
    match attempts t with
    | .exn => .error ()
    | .resp s r =>
      if s = 200 then .ok (some (r.getD []), 1)
      else
        match buscarLoopOrgao attempts (t + 1) rem with
        | .ok p => .ok (p.1, p.2 + 1)
        | .error e => .error e

/-- The page fetcher of `ColetorDadosOrgao`, run from `tentativas = 0` with
the full budget of 5 attempts. -/
def buscar_dados_orgao {Rec : Type} (attempts : Nat → HttpOutcome Rec) :
    Except Unit (Option (List Rec) × Nat) :=
  buscarLoopOrgao attempts 0 5

/-- Observable result of one keyless collection run: the final contents of
`self.todos_dados`, the list of page numbers for which `buscar_dados` was
invoked (in order), and the total number of `requests.get` calls issued. -/
structure RunLog (Rec : Type) where
  todos_dados : List Rec
  paginas : List Nat
  httpCount : Nat
  deriving DecidableEq

/-- The `self.todos_dados` attribute as initialised by the constructors of
all three collector classes: the empty list. -/
def init_todos_dados (Rec : Type) : List Rec := []

/-- Pagination loop of `ColetorDadosUasg.obter_todos_dados`
(consultar_uasg.py, lines 44-57) and of `ColetorDadosOrgao.obter_todos_dados`
(consultar_orgao.py, lines 25-35), whose bodies are identical:
`pagina = 1; while True:` fetch the page, `if not dados: break` (so `None`
and `[]` both end the run), otherwise `self.todos_dados.extend(dados)` and
`pagina += 1`.  `env` maps a page number to that page's attempt oracle; `acc`
is the current `self.todos_dados`; the last argument is fuel for the
unbounded loop. -/
def obterLoop {Rec : Type} (env : Nat → Nat → HttpOutcome Rec)
    (acc : List Rec) (pagina : Nat) : Nat → RunLog Rec
  | 0 => ⟨acc, [], 0⟩
  | fuel + 1 =>
    let b := buscar_dados (env pagina)
    match b.1 with
    | some (x :: xs) =>
      let r := obterLoop env (acc ++ (x :: xs)) (pagina + 1) fuel
      ⟨r.todos_dados, pagina :: r.paginas, b.2 + r.httpCount⟩
    | _ => ⟨acc, [pagina], b.2⟩

/-- `ColetorDadosUasg.obter_todos_dados`, started at `pagina = 1` from the
current `self.todos_dados` (`acc`).  The Python method returns
`self.todos_dados`, i.e. the `todos_dados` field of the result. -/
def obter_todos_dados {Rec : Type} (env : Nat → Nat → HttpOutcome Rec)
    (acc : List Rec) (fuel : Nat) : RunLog Rec :=
  obterLoop env acc 1 fuel

/-- Inner `while True` pagination loop of
`ColetorDadosPgc.obter_dados_de_orgaos` (consultar_pgcDetalhe.py, lines
47-64) for one CNPJ: fetch the page, break `if dados is None or
len(dados) == 0`, otherwise extend `self.todos_dados` and advance `pagina`.
`fetch` maps a page number to that page's attempt oracle (the CNPJ is already
fixed). -/
def pgcKeyLoop {Rec : Type} (fetch : Nat → Nat → HttpOutcome Rec)
    (acc : List Rec) (pagina : Nat) : Nat → RunLog Rec
  | 0 => ⟨acc, [], 0⟩
  | fuel + 1 =>
    let b := buscar_dados (fetch pagina)
    match b.1 with
    | some (x :: xs) =>
      let r := pgcKeyLoop fetch (acc ++ (x :: xs)) (pagina + 1) fuel
      ⟨r.todos_dados, pagina :: r.paginas, b.2 + r.httpCount⟩
    | _ => ⟨acc, [pagina], b.2⟩

/-- Observable result of one key-scoped collection run: the final
`self.todos_dados`, the (cnpj, page) pairs for which `buscar_dados` was
invoked (in order), the total number of `requests.get` calls, and the Python
return value of the method (`none` models Python `None`; a method written
`return self.todos_dados` would yield `some` of that list). -/
structure KeyRun (Rec : Type) where
  todos_dados : List Rec
  fetches : List (String × Nat)
  httpCount : Nat
  ret : Option (List Rec)
  deriving DecidableEq

/-- `ColetorDadosPgc.obter_dados_de_orgaos` (consultar_pgcDetalhe.py, lines
47-64): for each CNPJ in order, run the inner pagination loop, accumulating
into `self.todos_dados`; the method body ends without a `return` statement,
so its Python return value is `None` (the `ret` field is `none`).  `env` maps
a CNPJ and a page number to that page's attempt oracle; every key's inner
loop receives the same fuel. -/
def obter_dados_de_orgaos {Rec : Type} (env : String → Nat → Nat → HttpOutcome Rec)
    (cnpjs : List String) (fuel : Nat) (acc : List Rec) : KeyRun Rec :=
  match cnpjs with
  | [] => ⟨acc, [], 0, none⟩
  | k :: rest =>
    let r := pgcKeyLoop (env k) acc 1 fuel
    let s := obter_dados_de_orgaos env rest fuel r.todos_dados
    ⟨s.todos_dados, r.paginas.map (fun p => (k, p)) ++ s.fetches,
      r.httpCount + s.httpCount, none⟩

/-- Python `str.zfill(width)` on a list of characters: if the string already
has `width` characters or more it is returned unchanged; otherwise it is
left-padded with `'0'` up to `width`, except that a leading sign character
(`'+'` or `'-'`) stays in front of the inserted zeros. -/
def zfillList (l : List Char) (width : Nat) : List Char :=
  if width ≤ l.length then l
  else
    match l with
    | [] => List.replicate width '0'
    | c :: rest =>
      if c = '+' ∨ c = '-' then c :: (List.replicate (width - l.length) '0' ++ rest)
      else List.replicate (width - l.length) '0' ++ (c :: rest)

/-- Python `str.zfill` on strings. -/
def zfill (s : String) (width : Nat) : String :=
  String.mk (zfillList s.data width)

/-- `ajustar_cnpj` (consultar_pgcDetalhe.py, lines 75-86): `str(cnpj)` (here
the input is already a string), then `zfill(tamanho)` when the string is
shorter than `tamanho`; otherwise the string is returned unchanged. -/
def ajustar_cnpj (cnpj : String) (tamanho : Nat) : String :=
  if cnpj.length < tamanho then zfill cnpj tamanho else cnpj

/-- Python `str.strip()` with no argument: remove leading and trailing
whitespace (ASCII whitespace in this model; Python also strips some Unicode
space characters, which are outside the scope of the claims). -/
def pyStrip (s : String) : String :=
  String.mk (((s.data.dropWhile Char.isWhitespace).reverse.dropWhile
    Char.isWhitespace).reverse)

/-- Python `str.isdigit()` restricted to ASCII: true iff the string is
non-empty and all its characters are digits. -/
def pyIsdigit (s : String) : Bool :=
  !s.data.isEmpty && s.data.all Char.isDigit

/-- `ajustar_valor`, the per-cell fixer defined inside `corrigir_cnpj`
(consultar_uasg.py, lines 67-86): `valor_str = str(valor).strip()` (the input
is already the `str` of the cell); prefix `"0"` exactly when `valor_str`
consists only of digits and has exactly 13 characters, else return
`valor_str` unchanged. -/
def ajustar_valor (valor : String) : String :=
  let valor_str := pyStrip valor
  if pyIsdigit valor_str && valor_str.length == 13 then "0" ++ valor_str
  else valor_str

/-- `corrigir_cnpj` applied to the `cnpjCpfOrgao` column (a `pd.Series.apply`
of `ajustar_valor` over the cells, each cell viewed through `str`). -/
def corrigir_cnpj (coluna : List String) : List String :=
  coluna.map ajustar_valor

/-- Attempt oracle for witnesses: every attempt yields HTTP 500. -/
def att500 : Nat → HttpOutcome Nat := fun _ => .resp 500 none

/-- Attempt oracle for counterexamples: every attempt yields HTTP 204 (a 2xx
success status that is not 200) with a one-record `resultado`. -/
def att204 : Nat → HttpOutcome Nat := fun _ => .resp 204 (some [1])

/-- Attempt oracle for counterexamples: every attempt yields HTTP 304 (not a
2xx status, but one for which `raise_for_status` does not raise). -/
def att304 : Nat → HttpOutcome Nat := fun _ => .resp 304 none

/-- Attempt oracle for counterexamples: every attempt raises a transport
error. -/
def attExn : Nat → HttpOutcome Nat := fun _ => .exn

/-- Attempt oracle for witnesses: every attempt yields HTTP 200 with a JSON
body without a `"resultado"` field. -/
def att200none : Nat → HttpOutcome Nat := fun _ => .resp 200 none

/-- Attempt oracle for witnesses: attempts 0 and 1 yield HTTP 500, attempt 2
yields HTTP 200 with a one-record `resultado`. -/
def attOrgaoOk : Nat → HttpOutcome Nat := fun i =>
  if i < 2 then .resp 500 none else .resp 200 (some [9])

/-- Keyless environment for witnesses: page 1 holds `[1]`, page 2 holds
`[2, 3]`, every later page is empty; every fetch succeeds on its first
attempt. -/
def envC1 : Nat → Nat → HttpOutcome Nat := fun p _ =>
  if p = 1 then .resp 200 (some [1])
  else if p = 2 then .resp 200 (some [2, 3])
  else .resp 200 (some [])

/-- Keyless environment for witnesses: every attempt of every page fails
with HTTP 500. -/
def envFail : Nat → Nat → HttpOutcome Nat := fun _ _ => .resp 500 none

/-- Keyless environment for witnesses: pages 1 and 2 each fail on attempts
0-3 and succeed on attempt 4 (with `[1]` and `[2]` respectively); page 3 is
empty on its first attempt. -/
def envRetry : Nat → Nat → HttpOutcome Nat := fun p i =>
  if p ≤ 2 then (if i < 4 then .resp 500 none else .resp 200 (some [p]))
  else .resp 200 (some [])

/-- Key-scoped environment for witnesses: key "a" always fails with HTTP
500; any other key has `[7]` on page 1 and nothing afterwards. -/
def envKeyed : String → Nat → Nat → HttpOutcome Nat := fun k p _ =>
  if k = "a" then .resp 500 none
  else if p = 1 then .resp 200 (some [7])
  else .resp 200 (some [])

/-- Key-scoped environment for counterexamples: every key has `[5]` on page
1 and nothing afterwards. -/
def envC7 : String → Nat → Nat → HttpOutcome Nat := fun _ p _ =>
  if p = 1 then .resp 200 (some [5])
  else .resp 200 (some [])

/-! Helper lemmas about the retry loops. -/

theorem buscarLoop_all_fail {Rec : Type} (a : Nat → HttpOutcome Rec) :
    ∀ (rem t : Nat), (∀ i, t ≤ i → i < t + rem → attemptFails (a i) = true) →
      buscarLoop a t rem = (none, rem) := by
  intro rem
  induction rem with
  | zero => intro t _; rfl
  | succ rem ih =>
    intro t H
    have h0 : attemptFails (a t) = true := H t le_rfl (by omega)
    have hrec := ih (t + 1) (fun i h1 h2 => H i (by omega) (by omega))
    cases ha : a t with
    | exn => simp [buscarLoop, ha, hrec]
    | resp s r =>
      have hs : raise_for_status_raises s = true := by
        simpa [attemptFails, ha] using h0
      simp [buscarLoop, ha, hs, hrec]

theorem buscarLoop_first_success {Rec : Type} (a : Nat → HttpOutcome Rec) :
    ∀ (rem t j : Nat), t ≤ j → j < t + rem → attemptFails (a j) = false →
      (∀ i, t ≤ i → i < j → attemptFails (a i) = true) →
      buscarLoop a t rem = (some (parseResposta (a j)), j + 1 - t) := by
  intro rem
  induction rem with
  | zero => intro t j h1 h2 _ _; omega
  | succ rem ih =>
    intro t j htj hlt hok hfail
    rcases Nat.eq_or_lt_of_le htj with heq | hlt2
    · subst heq
      cases ha : a t with
      | exn => simp [attemptFails, ha] at hok
      | resp s r =>
        have hs : raise_for_status_raises s = false := by
          simpa [attemptFails, ha] using hok
        simp [buscarLoop, ha, hs, parseResposta]
    · have hft : attemptFails (a t) = true := hfail t le_rfl hlt2
      have hrec := ih (t + 1) j (by omega) (by omega) hok
        (fun i hi1 hi2 => hfail i (by omega) hi2)
      cases ha : a t with
      | exn =>
        have hstep : buscarLoop a t (rem + 1) =
            ((buscarLoop a (t + 1) rem).1, (buscarLoop a (t + 1) rem).2 + 1) := by
          simp [buscarLoop, ha]
        rw [hstep, hrec]
        simp only [Prod.mk.injEq]
        exact ⟨trivial, by omega⟩
      | resp s r =>
        have hs : raise_for_status_raises s = true := by
          simpa [attemptFails, ha] using hft
        have hstep : buscarLoop a t (rem + 1) =
            ((buscarLoop a (t + 1) rem).1, (buscarLoop a (t + 1) rem).2 + 1) := by
          simp [buscarLoop, ha, hs]
        rw [hstep, hrec]
        simp only [Prod.mk.injEq]
        exact ⟨trivial, by omega⟩

theorem buscarLoopOrgao_all_fail {Rec : Type} (a : Nat → HttpOutcome Rec) :
    ∀ (rem t : Nat), (∀ i, t ≤ i → i < t + rem → orgaoFalha (a i) = true) →
      buscarLoopOrgao a t rem = .ok (none, rem) := by
  intro rem
  induction rem with
  | zero => intro t _; rfl
  | succ rem ih =>
    intro t H
    have h0 : orgaoFalha (a t) = true := H t le_rfl (by omega)
    have hrec := ih (t + 1) (fun i h1 h2 => H i (by omega) (by omega))
    cases ha : a t with
    | exn => simp [orgaoFalha, ha] at h0
    | resp s r =>
      have hs : s ≠ 200 := by simpa [orgaoFalha, ha] using h0
      simp [buscarLoopOrgao, ha, hs, hrec]

theorem buscarLoopOrgao_first_200 {Rec : Type} (a : Nat → HttpOutcome Rec) :
    ∀ (rem t j : Nat) (r : Option (List Rec)), t ≤ j → j < t + rem →
      a j = .resp 200 r →
      (∀ i, t ≤ i → i < j → orgaoFalha (a i) = true) →
      buscarLoopOrgao a t rem = .ok (some (r.getD []), j + 1 - t) := by
  intro rem
  induction rem with
  | zero => intro t j _ h1 h2 _ _; omega
  | succ rem ih =>
    intro t j r htj hlt hj hfail
    rcases Nat.eq_or_lt_of_le htj with heq | hlt2
    · subst heq
      simp [buscarLoopOrgao, hj]
    · have hft : orgaoFalha (a t) = true := hfail t le_rfl hlt2
      have hrec := ih (t + 1) j r (by omega) (by omega) hj
        (fun i hi1 hi2 => hfail i (by omega) hi2)
      cases ha : a t with
      | exn => simp [orgaoFalha, ha] at hft
      | resp s rr =>
        have hs : s ≠ 200 := by simpa [orgaoFalha, ha] using hft
        have hstep : buscarLoopOrgao a t (rem + 1) =
            (match buscarLoopOrgao a (t + 1) rem with
              | .ok p => .ok (p.1, p.2 + 1)
              | .error e => .error e) := by
          simp [buscarLoopOrgao, ha, hs]
        rw [hstep, hrec]
        simp only [Except.ok.injEq, Prod.mk.injEq]
        exact ⟨trivial, by omega⟩

theorem buscarLoopOrgao_first_exn {Rec : Type} (a : Nat → HttpOutcome Rec) :
    ∀ (rem t j : Nat), t ≤ j → j < t + rem →
      a j = .exn →
      (∀ i, t ≤ i → i < j → orgaoFalha (a i) = true) →
      buscarLoopOrgao a t rem = .error () := by
  intro rem
  induction rem with
  | zero => intro t j h1 h2 _ _; omega
  | succ rem ih =>
    intro t j htj hlt hj hfail
    rcases Nat.eq_or_lt_of_le htj with heq | hlt2
    · subst heq
      simp [buscarLoopOrgao, hj]
    · have hft : orgaoFalha (a t) = true := hfail t le_rfl hlt2
      have hrec := ih (t + 1) j (by omega) (by omega) hj
        (fun i hi1 hi2 => hfail i (by omega) hi2)
      cases ha : a t with
      | exn => simp [orgaoFalha, ha] at hft
      | resp s rr =>
        have hs : s ≠ 200 := by simpa [orgaoFalha, ha] using hft
        simp [buscarLoopOrgao, ha, hs, hrec]

/-! Helper lemmas about the pagination loops. -/

theorem obterLoop_stop {Rec : Type} (env : Nat → Nat → HttpOutcome Rec)
    (acc : List Rec) (pagina fuel : Nat)
    (h : (buscar_dados (env pagina)).1 = none ∨ (buscar_dados (env pagina)).1 = some []) :
    obterLoop env acc pagina (fuel + 1) = ⟨acc, [pagina], (buscar_dados (env pagina)).2⟩ := by
  rcases h with h | h <;> simp [obterLoop, h]

theorem obterLoop_step {Rec : Type} (env : Nat → Nat → HttpOutcome Rec)
    (acc : List Rec) (pagina fuel : Nat) (x : Rec) (xs : List Rec)
    (h : (buscar_dados (env pagina)).1 = some (x :: xs)) :
    obterLoop env acc pagina (fuel + 1) =
      ⟨(obterLoop env (acc ++ (x :: xs)) (pagina + 1) fuel).todos_dados,
        pagina :: (obterLoop env (acc ++ (x :: xs)) (pagina + 1) fuel).paginas,
        (buscar_dados (env pagina)).2 +
          (obterLoop env (acc ++ (x :: xs)) (pagina + 1) fuel).httpCount⟩ := by
  simp [obterLoop, h]

theorem pgcKeyLoop_stop {Rec : Type} (fetch : Nat → Nat → HttpOutcome Rec)
    (acc : List Rec) (pagina fuel : Nat)
    (h : (buscar_dados (fetch pagina)).1 = none ∨ (buscar_dados (fetch pagina)).1 = some []) :
    pgcKeyLoop fetch acc pagina (fuel + 1) = ⟨acc, [pagina], (buscar_dados (fetch pagina)).2⟩ := by
  rcases h with h | h <;> simp [pgcKeyLoop, h]

theorem pgcKeyLoop_step {Rec : Type} (fetch : Nat → Nat → HttpOutcome Rec)
    (acc : List Rec) (pagina fuel : Nat) (x : Rec) (xs : List Rec)
    (h : (buscar_dados (fetch pagina)).1 = some (x :: xs)) :
    pgcKeyLoop fetch acc pagina (fuel + 1) =
      ⟨(pgcKeyLoop fetch (acc ++ (x :: xs)) (pagina + 1) fuel).todos_dados,
        pagina :: (pgcKeyLoop fetch (acc ++ (x :: xs)) (pagina + 1) fuel).paginas,
        (buscar_dados (fetch pagina)).2 +
          (pgcKeyLoop fetch (acc ++ (x :: xs)) (pagina + 1) fuel).httpCount⟩ := by
  simp [pgcKeyLoop, h]

theorem obterLoop_acc {Rec : Type} (env : Nat → Nat → HttpOutcome Rec) :
    ∀ (fuel : Nat) (acc : List Rec) (pagina : Nat),
      (obterLoop env acc pagina fuel).todos_dados =
        acc ++ (obterLoop env [] pagina fuel).todos_dados := by
  intro fuel
  induction fuel with
  | zero => intro acc pagina; simp [obterLoop]
  | succ fuel ih =>
    intro acc pagina
    cases hb : (buscar_dados (env pagina)).1 with
    | none =>
      rw [obterLoop_stop env acc pagina fuel (Or.inl hb),
        obterLoop_stop env [] pagina fuel (Or.inl hb)]
      simp
    | some l =>
      cases l with
      | nil =>
        rw [obterLoop_stop env acc pagina fuel (Or.inr hb),
          obterLoop_stop env [] pagina fuel (Or.inr hb)]
        simp
      | cons x xs =>
        rw [obterLoop_step env acc pagina fuel x xs hb,
          obterLoop_step env [] pagina fuel x xs hb]
        simp only
        rw [ih (acc ++ (x :: xs)) (pagina + 1), ih ([] ++ (x :: xs)) (pagina + 1)]
        simp

theorem pgcKeyLoop_acc {Rec : Type} (fetch : Nat → Nat → HttpOutcome Rec) :
    ∀ (fuel : Nat) (acc : List Rec) (pagina : Nat),
      (pgcKeyLoop fetch acc pagina fuel).todos_dados =
        acc ++ (pgcKeyLoop fetch [] pagina fuel).todos_dados := by
  intro fuel
  induction fuel with
  | zero => intro acc pagina; simp [pgcKeyLoop]
  | succ fuel ih =>
    intro acc pagina
    cases hb : (buscar_dados (fetch pagina)).1 with
    | none =>
      rw [pgcKeyLoop_stop fetch acc pagina fuel (Or.inl hb),
        pgcKeyLoop_stop fetch [] pagina fuel (Or.inl hb)]
      simp
    | some l =>
      cases l with
      | nil =>
        rw [pgcKeyLoop_stop fetch acc pagina fuel (Or.inr hb),
          pgcKeyLoop_stop fetch [] pagina fuel (Or.inr hb)]
        simp
      | cons x xs =>
        rw [pgcKeyLoop_step fetch acc pagina fuel x xs hb,
          pgcKeyLoop_step fetch [] pagina fuel x xs hb]
        simp only
        rw [ih (acc ++ (x :: xs)) (pagina + 1), ih ([] ++ (x :: xs)) (pagina + 1)]
        simp

theorem obter_dados_de_orgaos_acc {Rec : Type} (env : String → Nat → Nat → HttpOutcome Rec) :
    ∀ (cnpjs : List String) (fuel : Nat) (acc : List Rec),
      (obter_dados_de_orgaos env cnpjs fuel acc).todos_dados =
        acc ++ (obter_dados_de_orgaos env cnpjs fuel []).todos_dados := by
  intro cnpjs
  induction cnpjs with
  | nil => intro fuel acc; simp [obter_dados_de_orgaos]
  | cons k rest ih =>
    intro fuel acc
    simp only [obter_dados_de_orgaos]
    rw [ih fuel (pgcKeyLoop (env k) acc 1 fuel).todos_dados,
      ih fuel (pgcKeyLoop (env k) [] 1 fuel).todos_dados,
      pgcKeyLoop_acc (env k) fuel acc 1]
    simp

theorem obter_dados_de_orgaos_ret {Rec : Type} (env : String → Nat → Nat → HttpOutcome Rec)
    (cnpjs : List String) (fuel : Nat) (acc : List Rec) :
    (obter_dados_de_orgaos env cnpjs fuel acc).ret = none := by
  cases cnpjs <;> simp [obter_dados_de_orgaos]

/-- Main pagination lemma: if `buscar_dados` yields exactly the pages of
`pages` (all non-empty) at consecutive page numbers starting from `p0`, and
an empty page right after them, then the pagination loop returns the
concatenation of `pages` appended to the accumulator, having fetched exactly
the page numbers `p0, p0 + 1, ..., p0 + pages.length`. -/
theorem obterLoop_pages {Rec : Type} (env : Nat → Nat → HttpOutcome Rec) :
    ∀ (pages : List (List Rec)) (p0 : Nat) (acc : List Rec) (fuel : Nat),
      (∀ i (h : i < pages.length),
        (buscar_dados (env (p0 + i))).1 = some (pages.get ⟨i, h⟩)) →
      (∀ pg ∈ pages, pg ≠ []) →
      (buscar_dados (env (p0 + pages.length))).1 = some [] →
      pages.length + 1 ≤ fuel →
      (obterLoop env acc p0 fuel).todos_dados = acc ++ pages.flatten ∧
        (obterLoop env acc p0 fuel).paginas = List.range' p0 (pages.length + 1) := by
  intro pages
  induction pages with
  | nil =>
    intro p0 acc fuel _ _ hend hfuel
    obtain ⟨f, rfl⟩ : ∃ f, fuel = f + 1 := ⟨fuel - 1, by omega⟩
    have h0 : (buscar_dados (env p0)).1 = some [] := by simpa using hend
    rw [obterLoop_stop env acc p0 f (Or.inr h0)]
    simp [List.range']
  | cons pg rest ih =>
    intro p0 acc fuel hfetch hne hend hfuel
    obtain ⟨f, rfl⟩ : ∃ f, fuel = f + 1 := ⟨fuel - 1, by omega⟩
    have h0 : (buscar_dados (env p0)).1 = some pg := by
      simpa using hfetch 0 (by simp)
    cases hpg : pg with
    | nil => exact absurd hpg (hne pg (List.mem_cons_self pg rest))
    | cons x xs =>
      rw [hpg] at h0
      rw [obterLoop_step env acc p0 f x xs h0]
      have hfetch' : ∀ i (h : i < rest.length),
          (buscar_dados (env (p0 + 1 + i))).1 = some (rest.get ⟨i, h⟩) := by
        intro i h
        have e : p0 + 1 + i = p0 + (i + 1) := by omega
        rw [e]
        exact hfetch (i + 1) (by simpa using Nat.succ_lt_succ h)
      have hend' : (buscar_dados (env (p0 + 1 + rest.length))).1 = some [] := by
        have e : p0 + 1 + rest.length = p0 + (pg :: rest).length := by
          simp; omega
        rw [e]; exact hend
      have hrec := ih (p0 + 1) (acc ++ (x :: xs)) f hfetch'
        (fun q hq => hne q (List.mem_cons_of_mem pg hq)) hend' (by simpa using hfuel)
      constructor
      · simp only [hrec.1, hpg]
        simp [List.flatten]
      · simp only [hrec.2]
        simp [List.range', List.length_cons]

/-! Claim theorems. -/

/-- C1: for every run in which the page fetcher yields N non-empty pages
(each of size at most the page size) followed by one empty page, the key-less
collection operation (`obter_todos_dados`, identical in consultar_uasg.py and
consultar_orgao.py) returns exactly the concatenation of those N pages, in
page order, and invokes the fetcher exactly N + 1 times (pages 1 through
N + 1, in order). -/
theorem c1_obter_todos_dados_pages {Rec : Type} (env : Nat → Nat → HttpOutcome Rec)
    (pages : List (List Rec)) (pageSize fuel : Nat)
    (hne : ∀ pg ∈ pages, pg ≠ [])
    (hsize : ∀ pg ∈ pages, pg.length ≤ pageSize)
    (hfetch : ∀ i (h : i < pages.length),
      (buscar_dados (env (i + 1))).1 = some (pages.get ⟨i, h⟩))
    (hend : (buscar_dados (env (pages.length + 1))).1 = some [])
    (hfuel : pages.length + 1 ≤ fuel) :
    (obter_todos_dados env [] fuel).todos_dados = pages.flatten ∧
      (obter_todos_dados env [] fuel).paginas = List.range' 1 (pages.length + 1) ∧
      (obter_todos_dados env [] fuel).paginas.length = pages.length + 1 := by
  have hfetch1 : ∀ i (h : i < pages.length),
      (buscar_dados (env (1 + i))).1 = some (pages.get ⟨i, h⟩) := by
    intro i h
    have e : 1 + i = i + 1 := by omega
    rw [e]
    exact hfetch i h
  have hend1 : (buscar_dados (env (1 + pages.length))).1 = some [] := by
    have e : 1 + pages.length = pages.length + 1 := by omega
    rw [e]
    exact hend
  have h := obterLoop_pages env pages 1 [] fuel hfetch1 hne hend1 hfuel
  refine ⟨by simpa using h.1, h.2, ?_⟩
  rw [show (obter_todos_dados env [] fuel).paginas = List.range' 1 (pages.length + 1) from h.2]
  simp

/-- Witness for C1 at a concrete environment with two non-empty pages. -/
theorem c1_witness :
    (obter_todos_dados envC1 [] 3).todos_dados = [1, 2, 3] ∧
      (obter_todos_dados envC1 [] 3).paginas = List.range' 1 3 ∧
      (obter_todos_dados envC1 [] 3).paginas.length = 3 :=
  c1_obter_todos_dados_pages envC1 [[1], [2, 3]] 2 3
    (by decide) (by decide) (by decide) (by decide) (by decide)

/-- C2: for every run in which every one of the 5 HTTP attempts for page 1
fails, the resulting record collection is empty, exactly 5 HTTP attempts are
made (all for page 1), and no request for page 2 is ever issued: the only
page ever fetched is page 1. -/
theorem c2_fail_fast {Rec : Type} (env : Nat → Nat → HttpOutcome Rec) (fuel : Nat)
    (hfail : ∀ i, i < 5 → attemptFails (env 1 i) = true)
    (hfuel : 1 ≤ fuel) :
    (obter_todos_dados env [] fuel).todos_dados = [] ∧
      (obter_todos_dados env [] fuel).paginas = [1] ∧
      (obter_todos_dados env [] fuel).httpCount = 5 := by
  obtain ⟨f, rfl⟩ : ∃ f, fuel = f + 1 := ⟨fuel - 1, by omega⟩
  have hb : buscar_dados (env 1) = (none, 5) :=
    buscarLoop_all_fail (env 1) 5 0 (fun i h1 h2 => hfail i (by omega))
  have h := obterLoop_stop env [] 1 f (Or.inl (by rw [hb]))
  have he : obter_todos_dados env [] (f + 1) = obterLoop env [] 1 (f + 1) := rfl
  rw [he, h, hb]
  exact ⟨rfl, rfl, rfl⟩

/-- Witness for C2 at a concrete environment failing every attempt with
HTTP 500. -/
theorem c2_witness :
    (obter_todos_dados envFail [] 1).todos_dados = [] ∧
      (obter_todos_dados envFail [] 1).paginas = [1] ∧
      (obter_todos_dados envFail [] 1).httpCount = 5 :=
  c2_fail_fast envFail 1 (fun i _ => rfl) (by omega)

/-- C4 counterexample: the claim's final conjunct — the run returns whatever
records were accumulated — is false of `obter_dados_de_orgaos`, whose body
ends without a return statement: at a concrete one-key run accumulating
`[7]`, the Python return value is `None`, not the accumulated collection. -/
theorem c4_counterexample :
    (obter_dados_de_orgaos envKeyed ["b"] 2 []).todos_dados = [7] ∧
      (obter_dados_de_orgaos envKeyed ["b"] 2 []).ret = none ∧
      (obter_dados_de_orgaos envKeyed ["b"] 2 []).ret ≠
        some (obter_dados_de_orgaos envKeyed ["b"] 2 []).todos_dados := by
  decide

/-- C4 (amended): in a key-scoped run (`obter_dados_de_orgaos`), a key whose
first page fetch yields `None` (definitive failure) and one whose first page
is the empty sequence are treated identically as end-of-data for that key
only: the key contributes zero records, and the run continues with the
subsequent keys exactly as if started on them; the run completes with the
Python return value `None`, leaving everything accumulated (the prior
contents extended with every record fetched) in the collector's
`todos_dados` attribute rather than returning it. -/
theorem c4_key_isolation {Rec : Type} (env : String → Nat → Nat → HttpOutcome Rec)
    (k : String) (rest : List String) (fuel : Nat) (acc : List Rec)
    (hstop : (buscar_dados (env k 1)).1 = none ∨ (buscar_dados (env k 1)).1 = some [])
    (hfuel : 1 ≤ fuel) :
    (obter_dados_de_orgaos env (k :: rest) fuel acc).todos_dados =
      (obter_dados_de_orgaos env rest fuel acc).todos_dados ∧
      (obter_dados_de_orgaos env (k :: rest) fuel acc).fetches =
        (k, 1) :: (obter_dados_de_orgaos env rest fuel acc).fetches ∧
      (obter_dados_de_orgaos env (k :: rest) fuel acc).ret = none ∧
      (obter_dados_de_orgaos env (k :: rest) fuel acc).todos_dados =
        acc ++ (obter_dados_de_orgaos env (k :: rest) fuel []).todos_dados := by
  obtain ⟨f, rfl⟩ : ∃ f, fuel = f + 1 := ⟨fuel - 1, by omega⟩
  have h := pgcKeyLoop_stop (env k) acc 1 f hstop
  refine ⟨?_, ?_, obter_dados_de_orgaos_ret env (k :: rest) (f + 1) acc,
    obter_dados_de_orgaos_acc env (k :: rest) (f + 1) acc⟩ <;>
    simp [obter_dados_de_orgaos, h]

/-- Witness for C4: key "a" always fails with HTTP 500, key "b" has data;
the run over ["a", "b"] accumulates exactly what the run over ["b"] does,
and returns `None`. -/
theorem c4_witness :
    (obter_dados_de_orgaos envKeyed ["a", "b"] 2 []).todos_dados =
      (obter_dados_de_orgaos envKeyed ["b"] 2 []).todos_dados ∧
      (obter_dados_de_orgaos envKeyed ["a", "b"] 2 []).fetches =
        ("a", 1) :: (obter_dados_de_orgaos envKeyed ["b"] 2 []).fetches ∧
      (obter_dados_de_orgaos envKeyed ["a", "b"] 2 []).ret = none ∧
      (obter_dados_de_orgaos envKeyed ["a", "b"] 2 []).todos_dados =
        [] ++ (obter_dados_de_orgaos envKeyed ["a", "b"] 2 []).todos_dados :=
  c4_key_isolation envKeyed "a" ["b"] 2 [] (Or.inl (by decide)) (by omega)

/-- C5: the retry counter is scoped to a single page fetch and starts at zero
for every new page: a page whose fetch fails 4 times and succeeds on the 5th
attempt still leaves the next page with the full budget of 5 fresh attempts,
which the run below exercises on two consecutive pages (5 + 5 + 1 requests in
total). -/
theorem c5_retry_reset {Rec : Type} (env : Nat → Nat → HttpOutcome Rec)
    (ra rb acc : List Rec) (fuel : Nat)
    (h1 : ∀ i, i < 4 → attemptFails (env 1 i) = true)
    (h2 : env 1 4 = .resp 200 (some ra)) (hra : ra ≠ [])
    (h3 : ∀ i, i < 4 → attemptFails (env 2 i) = true)
    (h4 : env 2 4 = .resp 200 (some rb)) (hrb : rb ≠ [])
    (h5 : env 3 0 = .resp 200 (some []))
    (hfuel : 3 ≤ fuel) :
    buscar_dados (env 1) = (some ra, 5) ∧
      buscar_dados (env 2) = (some rb, 5) ∧
      (obter_todos_dados env acc fuel).todos_dados = acc ++ ra ++ rb ∧
      (obter_todos_dados env acc fuel).httpCount = 11 := by
  have hb1 : buscar_dados (env 1) = (some ra, 5) := by
    have hf : attemptFails (env 1 4) = false := by rw [h2]; rfl
    have h := buscarLoop_first_success (env 1) 5 0 4 (by omega) (by omega) hf
      (fun i hi1 hi2 => h1 i (by omega))
    rw [h2] at h
    simpa [buscar_dados, parseResposta] using h
  have hb2 : buscar_dados (env 2) = (some rb, 5) := by
    have hf : attemptFails (env 2 4) = false := by rw [h4]; rfl
    have h := buscarLoop_first_success (env 2) 5 0 4 (by omega) (by omega) hf
      (fun i hi1 hi2 => h3 i (by omega))
    rw [h4] at h
    simpa [buscar_dados, parseResposta] using h
  have hb3 : buscar_dados (env 3) = (some [], 1) := by
    have hf : attemptFails (env 3 0) = false := by rw [h5]; rfl
    have h := buscarLoop_first_success (env 3) 5 0 0 (by omega) (by omega) hf
      (fun i hi1 hi2 => absurd hi2 (by omega))
    rw [h5] at h
    simpa [buscar_dados, parseResposta] using h
  refine ⟨hb1, hb2, ?_⟩
  obtain ⟨f, rfl⟩ : ∃ f, fuel = f + 3 := ⟨fuel - 3, by omega⟩
  obtain ⟨x, xs, rfl⟩ : ∃ x xs, ra = x :: xs := by
    cases ra with
    | nil => exact absurd rfl hra
    | cons x xs => exact ⟨x, xs, rfl⟩
  obtain ⟨y, ys, rfl⟩ : ∃ y ys, rb = y :: ys := by
    cases rb with
    | nil => exact absurd rfl hrb
    | cons y ys => exact ⟨y, ys, rfl⟩
  have he : obter_todos_dados env acc (f + 3) = obterLoop env acc 1 (f + 3) := rfl
  rw [he, show f + 3 = (f + 2) + 1 from by omega,
    obterLoop_step env acc 1 (f + 2) x xs (by rw [hb1]),
    show (1 : Nat) + 1 = 2 from by omega,
    show f + 2 = (f + 1) + 1 from by omega,
    obterLoop_step env (acc ++ (x :: xs)) 2 (f + 1) y ys (by rw [hb2]),
    show (2 : Nat) + 1 = 3 from by omega,
    obterLoop_stop env ((acc ++ (x :: xs)) ++ (y :: ys)) 3 f (Or.inr (by rw [hb3])),
    hb1, hb2, hb3]
  exact ⟨by simp, rfl⟩

/-- Witness for C5 at a concrete environment whose pages 1 and 2 each fail
four times before succeeding on the fifth attempt. -/
theorem c5_witness :
    buscar_dados (envRetry 1) = (some [1], 5) ∧
      buscar_dados (envRetry 2) = (some [2], 5) ∧
      (obter_todos_dados envRetry [] 3).todos_dados = [1, 2] ∧
      (obter_todos_dados envRetry [] 3).httpCount = 11 :=
  c5_retry_reset envRetry [1] [2] [] 3
    (by decide) (by decide) (by decide) (by decide) (by decide) (by decide) (by decide)
    (by omega)

/-- C7 counterexample: `obter_dados_de_orgaos` has no return statement, so
its Python return value is `None`, not the accumulated record collection: at
a concrete one-key run accumulating `[5]`, the returned value is `none` and
differs from `some` of the accumulated collection. -/
theorem c7_counterexample :
    (obter_dados_de_orgaos envC7 ["k"] 3 []).todos_dados = [5] ∧
      (obter_dados_de_orgaos envC7 ["k"] 3 []).ret = none ∧
      (obter_dados_de_orgaos envC7 ["k"] 3 []).ret ≠
        some (obter_dados_de_orgaos envC7 ["k"] 3 []).todos_dados := by
  decide

/-- C7 (amended): `obter_dados_de_orgaos` returns `None` for every input key
sequence; the accumulated record collection is instead left in the
collector's `todos_dados` attribute, which after the call holds the prior
contents extended with every record fetched during the run. -/
theorem c7_pgc_run {Rec : Type} (env : String → Nat → Nat → HttpOutcome Rec)
    (cnpjs : List String) (fuel : Nat) (acc : List Rec) :
    (obter_dados_de_orgaos env cnpjs fuel acc).ret = none ∧
      (obter_dados_de_orgaos env cnpjs fuel acc).todos_dados =
        acc ++ (obter_dados_de_orgaos env cnpjs fuel []).todos_dados :=
  ⟨obter_dados_de_orgaos_ret env cnpjs fuel acc,
    obter_dados_de_orgaos_acc env cnpjs fuel acc⟩

/-- C9: the record collection `todos_dados` is created empty at collector
construction, and both collection operations only extend it: whatever was
accumulated before is left in place, in order, in front of the newly fetched
records, for the keyless pagination loop (at every page, hence at every
step), for `obter_todos_dados` itself, and for the key-scoped
`obter_dados_de_orgaos`. -/
theorem c9_append_only {Rec : Type} :
    init_todos_dados Rec = [] ∧
      (∀ (env : Nat → Nat → HttpOutcome Rec) (acc : List Rec) (pagina fuel : Nat),
        (obterLoop env acc pagina fuel).todos_dados =
          acc ++ (obterLoop env [] pagina fuel).todos_dados) ∧
      (∀ (env : Nat → Nat → HttpOutcome Rec) (acc : List Rec) (fuel : Nat),
        (obter_todos_dados env acc fuel).todos_dados =
          acc ++ (obter_todos_dados env [] fuel).todos_dados) ∧
      (∀ (env : String → Nat → Nat → HttpOutcome Rec) (cnpjs : List String)
          (fuel : Nat) (acc : List Rec),
        (obter_dados_de_orgaos env cnpjs fuel acc).todos_dados =
          acc ++ (obter_dados_de_orgaos env cnpjs fuel []).todos_dados) :=
  ⟨rfl, fun env acc pagina fuel => obterLoop_acc env fuel acc pagina,
    fun env acc fuel => obterLoop_acc env fuel acc 1,
    fun env cnpjs fuel acc => obter_dados_de_orgaos_acc env cnpjs fuel acc⟩

/-- C3 counterexample: the claim's retry policy does not hold of every
fetcher in the cited code.  In consultar_orgao.py, an HTTP 204 response (a
2xx success, which the claim says is not a failed attempt) is retried and,
repeated, exhausts all 5 attempts returning `None` instead of the parsed
page; and a transport error propagates out of the method instead of being
retried.  In consultar_uasg.py / consultar_pgcDetalhe.py, an HTTP 304
response (outside the 2xx range, which the claim says is a failed attempt)
does not raise in `raise_for_status` and is returned as a success on the
first attempt. -/
theorem c3_counterexample :
    buscar_dados_orgao att204 = .ok (none, 5) ∧
      buscar_dados_orgao att204 ≠ .ok (some [1], 1) ∧
      buscar_dados att304 = (some [], 1) ∧
      buscar_dados att304 ≠ (none, 5) ∧
      buscar_dados_orgao attExn = .error () := by
  refine ⟨rfl, ?_, rfl, ?_, rfl⟩
  · intro h
    rw [show buscar_dados_orgao att204 = Except.ok ((none : Option (List Nat)), 5) from rfl] at h
    simp at h
  · intro h
    rw [show buscar_dados att304 = ((some [] : Option (List Nat)), 1) from rfl] at h
    simp at h

/-- C3 (amended): for the fetchers of consultar_uasg.py and
consultar_pgcDetalhe.py, the request is attempted up to 5 times; an attempt
counts as failed (and is retried rather than propagated) exactly when the
transport raises or `raise_for_status` raises, i.e. when the status code is
in 400..599; after 5 failed attempts the fetcher returns `None`, and the
first non-failed attempt returns the parsed `"resultado"` after exactly that
many requests.  For the fetcher of consultar_orgao.py, an attempt counts as
failed-and-retried exactly when a response arrives with status ≠ 200 (so a
non-200 2xx response is retried), a transport error propagates to the caller
instead of being retried, and after 5 failed attempts it returns `None`. -/
theorem c3_retry_policy {Rec : Type} :
    (∀ (a : Nat → HttpOutcome Rec),
      (∀ i, i < 5 → attemptFails (a i) = true) → buscar_dados a = (none, 5)) ∧
      (∀ (a : Nat → HttpOutcome Rec) (j : Nat),
        j < 5 → attemptFails (a j) = false →
        (∀ i, i < j → attemptFails (a i) = true) →
        buscar_dados a = (some (parseResposta (a j)), j + 1)) ∧
      (∀ (a : Nat → HttpOutcome Rec),
        (∀ i, i < 5 → orgaoFalha (a i) = true) → buscar_dados_orgao a = .ok (none, 5)) ∧
      (∀ (a : Nat → HttpOutcome Rec) (j : Nat) (r : Option (List Rec)),
        j < 5 → a j = .resp 200 r →
        (∀ i, i < j → orgaoFalha (a i) = true) →
        buscar_dados_orgao a = .ok (some (r.getD []), j + 1)) ∧
      (∀ (a : Nat → HttpOutcome Rec) (j : Nat),
        j < 5 → a j = .exn →
        (∀ i, i < j → orgaoFalha (a i) = true) →
        buscar_dados_orgao a = .error ()) := by
  refine ⟨?_, ?_, ?_, ?_, ?_⟩
  · intro a H
    exact buscarLoop_all_fail a 5 0 (fun i h1 h2 => H i (by omega))
  · intro a j hj hok hfail
    have h := buscarLoop_first_success a 5 0 j (by omega) (by omega) hok
      (fun i h1 h2 => hfail i h2)
    simpa [buscar_dados] using h
  · intro a H
    exact buscarLoopOrgao_all_fail a 5 0 (fun i h1 h2 => H i (by omega))
  · intro a j r hj hr hfail
    have h := buscarLoopOrgao_first_200 a 5 0 j r (by omega) (by omega) hr
      (fun i h1 h2 => hfail i h2)
    simpa [buscar_dados_orgao] using h
  · intro a j hj hexn hfail
    exact buscarLoopOrgao_first_exn a 5 0 j (by omega) (by omega) hexn
      (fun i h1 h2 => hfail i h2)

/-- Witness for the amended C3 at concrete attempt oracles. -/
theorem c3_retry_policy_witness :
    buscar_dados att500 = (none, 5) ∧
      buscar_dados att200none = (some [], 1) ∧
      buscar_dados_orgao attOrgaoOk = .ok (some [9], 3) :=
  ⟨c3_retry_policy.1 att500 (fun i _ => rfl),
    c3_retry_policy.2.1 att200none 0 (by omega) rfl (fun i hi => absurd hi (by omega)),
    c3_retry_policy.2.2.2.1 attOrgaoOk 2 (some [9]) (by omega) rfl
      (fun i hi => by simp [attOrgaoOk, hi, orgaoFalha])⟩

/-- Length of Python `zfill` on a string shorter than the target width. -/
theorem zfillList_length (l : List Char) (w : Nat) (h : l.length < w) :
    (zfillList l w).length = w := by
  unfold zfillList
  rw [if_neg (by omega)]
  cases l with
  | nil => simp
  | cons c rest =>
    show (if c = '+' ∨ c = '-' then c :: (List.replicate (w - (c :: rest).length) '0' ++ rest)
      else List.replicate (w - (c :: rest).length) '0' ++ (c :: rest)).length = w
    by_cases hc : c = '+' ∨ c = '-'
    · rw [if_pos hc]
      simp only [List.length_cons, List.length_append, List.length_replicate]
      simp at h
      omega
    · rw [if_neg hc]
      simp only [List.length_append, List.length_replicate, List.length_cons]
      simp at h
      omega

/-- Length of `ajustar_cnpj` on a short input string. -/
theorem ajustar_cnpj_length (s : String) (h : s.length < 14) :
    (ajustar_cnpj s 14).length = 14 := by
  simp only [ajustar_cnpj, if_pos h]
  exact zfillList_length s.data 14 h

/-- C6: key normalization `ajustar_cnpj` with the default width 14 is
idempotent on every input string, and for every all-digit string shorter
than 14 characters the result has length exactly 14 and is the input
left-padded with the character '0'. -/
theorem c6_ajustar_cnpj_norm :
    (∀ s : String, ajustar_cnpj (ajustar_cnpj s 14) 14 = ajustar_cnpj s 14) ∧
      (∀ s : String, s.data.all Char.isDigit = true → s.length < 14 →
        (ajustar_cnpj s 14).length = 14 ∧
          (ajustar_cnpj s 14).data = List.replicate (14 - s.length) '0' ++ s.data) := by
  have key : ∀ t : String, ¬ t.length < 14 → ajustar_cnpj t 14 = t := by
    intro t ht
    simp only [ajustar_cnpj, if_neg ht]
  constructor
  · intro s
    by_cases h : s.length < 14
    · have h14 : (ajustar_cnpj s 14).length = 14 := ajustar_cnpj_length s h
      exact key _ (by omega)
    · rw [key s h]
      exact key s h
  · intro s hdig hlen
    refine ⟨ajustar_cnpj_length s hlen, ?_⟩
    obtain ⟨l⟩ := s
    have hl : l.length < 14 := hlen
    have hdig' : l.all Char.isDigit = true := hdig
    show (ajustar_cnpj (String.mk l) 14).data = _
    simp only [ajustar_cnpj, if_pos hlen, zfill]
    show zfillList l 14 = List.replicate (14 - l.length) '0' ++ l
    cases l with
    | nil =>
      unfold zfillList
      rw [if_neg (by simp)]
      simp
    | cons c rest =>
      have hcd : Char.isDigit c = true := by
        simp only [List.all_cons, Bool.and_eq_true] at hdig'
        exact hdig'.1
      have hc : ¬ (c = '+' ∨ c = '-') := by
        rintro (rfl | rfl) <;> exact absurd hcd (by decide)
      unfold zfillList
      rw [if_neg (by simp only [List.length_cons]; simp only [List.length_cons] at hl; omega)]
      show (if c = '+' ∨ c = '-' then c :: (List.replicate (14 - (c :: rest).length) '0' ++ rest)
        else List.replicate (14 - (c :: rest).length) '0' ++ (c :: rest)) =
        List.replicate (14 - (c :: rest).length) '0' ++ (c :: rest)
      rw [if_neg hc]

/-- Witness for C6 at the all-digit string "123". -/
theorem c6_witness :
    ajustar_cnpj (ajustar_cnpj "123" 14) 14 = ajustar_cnpj "123" 14 ∧
      (ajustar_cnpj "123" 14).length = 14 ∧
      (ajustar_cnpj "123" 14).data = List.replicate (14 - "123".length) '0' ++ "123".data :=
  ⟨c6_ajustar_cnpj_norm.1 "123",
    (c6_ajustar_cnpj_norm.2 "123" (by decide) (by decide)).1,
    (c6_ajustar_cnpj_norm.2 "123" (by decide) (by decide)).2⟩

/-- C8: for every successful (2xx) response the fetcher parses the body and
returns the value of the `"resultado"` field after exactly one request; if
the field is absent it returns the empty sequence; and both pagination loops
treat an empty page exactly as end-of-data (stop, no failure), identically
to `None`. -/
theorem c8_resultado_parsing {Rec : Type} :
    (∀ (a : Nat → HttpOutcome Rec) (s : Nat) (r : Option (List Rec)),
      a 0 = .resp s r → 200 ≤ s → s < 300 →
      buscar_dados a = (some (r.getD []), 1)) ∧
      (∀ (a : Nat → HttpOutcome Rec) (s : Nat),
        a 0 = .resp s none → 200 ≤ s → s < 300 →
        buscar_dados a = (some [], 1)) ∧
      (∀ (env : Nat → Nat → HttpOutcome Rec) (acc : List Rec) (pagina fuel : Nat),
        (buscar_dados (env pagina)).1 = some [] →
        obterLoop env acc pagina (fuel + 1) = ⟨acc, [pagina], (buscar_dados (env pagina)).2⟩) ∧
      (∀ (fetch : Nat → Nat → HttpOutcome Rec) (acc : List Rec) (pagina fuel : Nat),
        (buscar_dados (fetch pagina)).1 = some [] →
        pgcKeyLoop fetch acc pagina (fuel + 1) = ⟨acc, [pagina], (buscar_dados (fetch pagina)).2⟩) := by
  have main : ∀ (a : Nat → HttpOutcome Rec) (s : Nat) (r : Option (List Rec)),
      a 0 = .resp s r → 200 ≤ s → s < 300 →
      buscar_dados a = (some (r.getD []), 1) := by
    intro a s r h0 hlo hhi
    have hns : ¬ (400 ≤ s) := by omega
    have hf : attemptFails (a 0) = false := by
      simp [attemptFails, h0, raise_for_status_raises, hns]
    have h := buscarLoop_first_success a 5 0 0 (by omega) (by omega) hf
      (fun i hi1 hi2 => absurd hi2 (by omega))
    rw [h0] at h
    simpa [buscar_dados, parseResposta] using h
  refine ⟨main, ?_, ?_, ?_⟩
  · intro a s h0 hlo hhi
    exact main a s none h0 hlo hhi
  · intro env acc pagina fuel h
    exact obterLoop_stop env acc pagina fuel (Or.inr h)
  · intro fetch acc pagina fuel h
    exact pgcKeyLoop_stop fetch acc pagina fuel (Or.inr h)

/-- Witness for C8 at a 200 response lacking the "resultado" field and at an
empty page 3 of the concrete environment `envC1`. -/
theorem c8_witness :
    buscar_dados att200none = (some [], 1) ∧
      obterLoop envC1 [] 3 1 = ⟨[], [3], (buscar_dados (envC1 3)).2⟩ :=
  ⟨c8_resultado_parsing.2.1 att200none 200 rfl (by omega) (by omega),
    c8_resultado_parsing.2.2.1 envC1 [] 3 0 (by decide)⟩

/-- C10: the per-cell fixer `ajustar_valor` used by `corrigir_cnpj` prefixes
exactly one '0' to the stripped cell string if and only if the stripped
string is all digits of length exactly 13; every other value, including
digit strings shorter than 13 (whose result therefore never has length 14),
is returned stripped but otherwise unchanged; and `corrigir_cnpj` applies
this fixer to every cell of the column. -/
theorem c10_corrigir_cnpj :
    (∀ v : String,
      (ajustar_valor v = "0" ++ pyStrip v ↔
        pyIsdigit (pyStrip v) = true ∧ (pyStrip v).length = 13)) ∧
      (∀ v : String, ¬ (pyIsdigit (pyStrip v) = true ∧ (pyStrip v).length = 13) →
        ajustar_valor v = pyStrip v) ∧
      (∀ v : String, pyIsdigit (pyStrip v) = true → (pyStrip v).length < 13 →
        ajustar_valor v = pyStrip v ∧ (ajustar_valor v).length ≠ 14) ∧
      (∀ coluna : List String, corrigir_cnpj coluna = coluna.map ajustar_valor) := by
  have key : ∀ v : String,
      (pyIsdigit (pyStrip v) && (pyStrip v).length == 13) = true →
      ajustar_valor v = "0" ++ pyStrip v := by
    intro v h
    simp only [ajustar_valor]
    rw [if_pos h]
  have key2 : ∀ v : String,
      ¬ ((pyIsdigit (pyStrip v) && (pyStrip v).length == 13) = true) →
      ajustar_valor v = pyStrip v := by
    intro v h
    simp only [ajustar_valor]
    rw [if_neg h]
  refine ⟨?_, ?_, ?_, fun coluna => rfl⟩
  · intro v
    constructor
    · intro heq
      by_cases h : (pyIsdigit (pyStrip v) && (pyStrip v).length == 13) = true
      · simpa [Bool.and_eq_true, beq_iff_eq] using h
      · exfalso
        rw [key2 v h] at heq
        have hlen := congrArg String.length heq
        rw [String.length_append] at hlen
        have h1 : ("0" : String).length = 1 := rfl
        omega
    · intro hc
      apply key
      simp [Bool.and_eq_true, beq_iff_eq, hc.1, hc.2]
  · intro v h
    apply key2
    intro hc
    exact h (by simpa [Bool.and_eq_true, beq_iff_eq] using hc)
  · intro v hdig hlen
    have hne : ¬ ((pyIsdigit (pyStrip v) && (pyStrip v).length == 13) = true) := by
      simp only [Bool.and_eq_true, beq_iff_eq]
      intro hc
      omega
    have he := key2 v hne
    refine ⟨he, ?_⟩
    rw [he]
    omega

/-- Witness for C10 at the 3-digit cell "123", not padded, and the 13-digit
cell, padded. -/
theorem c10_witness :
    (ajustar_valor "123" = pyStrip "123" ∧ (ajustar_valor "123").length ≠ 14) ∧
      ajustar_valor "1234567890123" = "0" ++ pyStrip "1234567890123" :=
  ⟨c10_corrigir_cnpj.2.2.1 "123" (by decide) (by decide),
    (c10_corrigir_cnpj.1 "1234567890123").2 ⟨by decide, by decide⟩⟩

end IbamaApi
